import Mathlib

/-!
Verification development for `vue-unity-webGL` (packages/lib/src/types.ts).

The repository in scope is a declarations-only TypeScript module: it defines
the configuration shape (`IUnityConfig`, `IUnityArguments`), the opaque
runtime-instance surface (`UnityInstance`), the drawable-surface reference
(`CanvasElement`) and the context-attribute options
(`IWebGLContextAttributes`).  We embed it at two levels:

1. a value-level shallow embedding: each TypeScript type becomes a Lean
   structure or inductive with the same fields, optionality expressed by
   `Option`;
2. a declaration-metadata embedding: since the source consists of type
   declarations (field names, `readonly` modifiers, `?` optionality markers,
   parameter and return types), we transcribe those declarations as data
   (`TsField`, `TsMember`, `TsType`) so that properties about the declared
   shape (which fields exist, which are optional, which are read-only,
   which members a class exposes) become decidable statements.

The lifecycle manager described by spec.md has no implementation in the
repository (the source only declares the types it would use); operations of
that manager are modelled from the spec and marked as such in their doc
comments.
-/

/-- JavaScript `number` as used by the declarations.  No arithmetic on it is
ever performed by this layer, so we model it as an exact rational. -/
abbrev JSNumber := ℚ

/-- An opaque handle to a live `HTMLCanvasElement`.  The browser object is
host-controlled; only its identity matters to this layer. -/
structure CanvasHandle where
  id : Nat
deriving DecidableEq, Repr

/-- Embedding of `CanvasElement = HTMLCanvasElement | string`
(types.ts line 1): a drawable-surface reference is either a direct handle to
a pre-existing rendering surface or a string locator. -/
inductive CanvasElement where
  | handle (h : CanvasHandle)
  | locator (s : String)
deriving DecidableEq, Repr

/-- Embedding of the `powerPreference` attribute's value type
`'default' | 'high-performance' | 'low-power'` (types.ts line 257). -/
inductive PowerPreference where
  | defaultPref
  | highPerformance
  | lowPower
deriving DecidableEq, Repr

/-- Embedding of `IWebGLContextAttributes` (types.ts lines 210-298).
Every field carries a `?` in the source, hence `Option` here. -/
structure IWebGLContextAttributes where
  alpha : Option Bool
  antialias : Option Bool
  depth : Option Bool
  failIfMajorPerformanceCaveat : Option Bool
  powerPreference : Option PowerPreference
  premultipliedAlpha : Option Bool
  preserveDrawingBuffer : Option Bool
  stencil : Option Bool
  desynchronized : Option Bool
  xrCompatible : Option Bool
deriving DecidableEq, Repr

/-- Embedding of `IUnityConfig` (types.ts lines 6-28): the `Pick` of
`IUnityArguments` fields `dataUrl` … `webglContextAttributes` together with
the required `loaderUrl`. -/
structure IUnityConfig where
  dataUrl : String
  frameworkUrl : String
  codeUrl : String
  streamingAssetsUrl : Option String
  memoryUrl : Option String
  symbolsUrl : Option String
  companyName : Option String
  productName : Option String
  productVersion : Option String
  devicePixelRatio : Option JSNumber
  matchWebGLToCanvasSize : Option Bool
  webglContextAttributes : Option IWebGLContextAttributes
  loaderUrl : String

/-- Embedding of `IUnityArguments` (types.ts lines 33-156).  The two
diagnostic sinks `print` and `printError` are single-string-argument
callables and are optional. -/
structure IUnityArguments where
  dataUrl : String
  frameworkUrl : String
  codeUrl : String
  streamingAssetsUrl : Option String
  memoryUrl : Option String
  symbolsUrl : Option String
  companyName : Option String
  productName : Option String
  productVersion : Option String
  devicePixelRatio : Option JSNumber
  matchWebGLToCanvasSize : Option Bool
  webglContextAttributes : Option IWebGLContextAttributes
  print : Option (String → Unit)
  printError : Option (String → Unit)

/-- Embedding of the anonymous object type of `UnityInstance.Module`
(types.ts lines 198-203): the readable reference to the instance's bound
drawable surface, declared optional (`canvas?: HTMLCanvasElement`). -/
structure UnityModule where
  canvas : Option CanvasHandle
deriving DecidableEq, Repr

/-- Embedding of the closed parameter variant of `UnityInstance.SendMessage`
(types.ts line 177): `string | number | boolean`. -/
inductive UnityMessageParam where
  | str (s : String)
  | num (n : JSNumber)
  | boolean (b : Bool)
deriving DecidableEq

/-- Embedding of the `0 | 1` argument type of `UnityInstance.SetFullscreen`
(types.ts line 185). -/
inductive FullscreenFlag where
  | zero
  | one
deriving DecidableEq, Repr

/-- `FullscreenFlag` read as a boolean toggle (1 = enable). -/
def flagToBool : FullscreenFlag → Bool
  | .zero => false
  | .one => true

/-- A boolean toggle written as a `FullscreenFlag`. -/
def boolToFlag : Bool → FullscreenFlag
  | false => .zero
  | true => .one

/-! ### Declaration metadata

The source file is a set of type declarations; we transcribe each declared
field and class member literally (name, type, `?` optionality, `readonly`
modifier, `@default` documentation tag) so that claims about the declared
shape are decidable. -/

/-- A (simplified) TypeScript type expression, covering exactly the type
forms that occur in types.ts. -/
inductive TsType where
  | str
  | num
  | boolean
  | voidType
  | canvasHandleType
  | promise (t : TsType)
  | literalNum (n : Nat)
  | literalStr (s : String)
  | union (a b : TsType)
  | func (arg ret : TsType)
  | namedRef (n : String)
deriving DecidableEq, Repr

/-- One declared object-type field: its name, type, whether it is marked
optional (`?`), whether it carries the `readonly` modifier, and the value of
its `@default` documentation tag when one is present. -/
structure TsField where
  name : String
  type : TsType
  optional : Bool
  readonly : Bool
  docDefault : Option String
deriving DecidableEq, Repr

/-- One declared function/method parameter. -/
structure TsParam where
  name : String
  type : TsType
  optional : Bool
deriving DecidableEq, Repr

/-- The kind of a class member. -/
inductive TsMemberKind where
  | ctor
  | method
  | property
deriving DecidableEq, Repr

/-- One declared class member. -/
structure TsMember where
  name : String
  kind : TsMemberKind
  params : List TsParam
  returnType : TsType
deriving DecidableEq, Repr

/-- The parameter type of `SendMessage`'s optional third argument:
`string | number | boolean` (types.ts line 177). -/
def sendMessageParamType : TsType := .union .str (.union .num .boolean)

/-- Fields of `IUnityArguments` as declared (types.ts lines 33-156), in
source order.  All fields up to `webglContextAttributes` carry `readonly`;
the diagnostic sinks `print` and `printError` do not. -/
def unityArgumentsFields : List TsField :=
  [ ⟨"dataUrl", .str, false, true, none⟩,
    ⟨"frameworkUrl", .str, false, true, none⟩,
    ⟨"codeUrl", .str, false, true, none⟩,
    ⟨"streamingAssetsUrl", .str, true, true, none⟩,
    ⟨"memoryUrl", .str, true, true, none⟩,
    ⟨"symbolsUrl", .str, true, true, none⟩,
    ⟨"companyName", .str, true, true, none⟩,
    ⟨"productName", .str, true, true, none⟩,
    ⟨"productVersion", .str, true, true, none⟩,
    ⟨"devicePixelRatio", .num, true, true, none⟩,
    ⟨"matchWebGLToCanvasSize", .boolean, true, true, none⟩,
    ⟨"webglContextAttributes", .namedRef "IWebGLContextAttributes", true, true, none⟩,
    ⟨"print", .func .str .voidType, true, false, none⟩,
    ⟨"printError", .func .str .voidType, true, false, none⟩ ]

/-- Fields of `IUnityConfig` (types.ts lines 6-28): the twelve fields picked
from `IUnityArguments` (which keep their modifiers) plus the required
`readonly loaderUrl : string`. -/
def unityConfigFields : List TsField :=
  [ ⟨"dataUrl", .str, false, true, none⟩,
    ⟨"frameworkUrl", .str, false, true, none⟩,
    ⟨"codeUrl", .str, false, true, none⟩,
    ⟨"streamingAssetsUrl", .str, true, true, none⟩,
    ⟨"memoryUrl", .str, true, true, none⟩,
    ⟨"symbolsUrl", .str, true, true, none⟩,
    ⟨"companyName", .str, true, true, none⟩,
    ⟨"productName", .str, true, true, none⟩,
    ⟨"productVersion", .str, true, true, none⟩,
    ⟨"devicePixelRatio", .num, true, true, none⟩,
    ⟨"matchWebGLToCanvasSize", .boolean, true, true, none⟩,
    ⟨"webglContextAttributes", .namedRef "IWebGLContextAttributes", true, true, none⟩,
    ⟨"loaderUrl", .str, false, true, none⟩ ]

/-- Fields of `IWebGLContextAttributes` (types.ts lines 210-298) in source
order, with the `@default` value documented on each. -/
def webglContextAttributeFields : List TsField :=
  [ ⟨"alpha", .boolean, true, true, some "true"⟩,
    ⟨"antialias", .boolean, true, true, some "true"⟩,
    ⟨"depth", .boolean, true, true, some "true"⟩,
    ⟨"failIfMajorPerformanceCaveat", .boolean, true, true, some "false"⟩,
    ⟨"powerPreference",
      .union (.literalStr "default")
        (.union (.literalStr "high-performance") (.literalStr "low-power")),
      true, true, some "default"⟩,
    ⟨"premultipliedAlpha", .boolean, true, true, some "true"⟩,
    ⟨"preserveDrawingBuffer", .boolean, true, true, some "false"⟩,
    ⟨"stencil", .boolean, true, true, some "false"⟩,
    ⟨"desynchronized", .boolean, true, true, some "false"⟩,
    ⟨"xrCompatible", .boolean, true, true, some "false"⟩ ]

/-- The field of `UnityInstance.Module`'s object type
(types.ts lines 198-203): `canvas?: HTMLCanvasElement`, no `readonly`
modifier, optional. -/
def moduleFields : List TsField :=
  [ ⟨"canvas", .canvasHandleType, true, false, none⟩ ]

/-- Members of `declare class UnityInstance` (types.ts lines 161-204), in
source order: a parameterless constructor, the three public methods, and
the public `Module` property. -/
def unityInstanceMembers : List TsMember :=
  [ ⟨"constructor", .ctor, [], .namedRef "UnityInstance"⟩,
    ⟨"SendMessage", .method,
      [ ⟨"objectName", .str, false⟩,
        ⟨"methodName", .str, false⟩,
        ⟨"parameter", sendMessageParamType, true⟩ ],
      .voidType⟩,
    ⟨"SetFullscreen", .method,
      [ ⟨"fullScreen", .union (.literalNum 0) (.literalNum 1), false⟩ ],
      .voidType⟩,
    ⟨"Quit", .method, [], .promise .voidType⟩,
    ⟨"Module", .property, [], .namedRef "UnityModule"⟩ ]

/-- The `SendMessage` member of `UnityInstance` (types.ts lines 174-178). -/
def sendMessageMember : TsMember :=
  ⟨"SendMessage", .method,
    [ ⟨"objectName", .str, false⟩,
      ⟨"methodName", .str, false⟩,
      ⟨"parameter", sendMessageParamType, true⟩ ],
    .voidType⟩

/-- The `SetFullscreen` member of `UnityInstance` (types.ts lines 180-185). -/
def setFullscreenMember : TsMember :=
  ⟨"SetFullscreen", .method,
    [ ⟨"fullScreen", .union (.literalNum 0) (.literalNum 1), false⟩ ],
    .voidType⟩

/-- The `Quit` member of `UnityInstance` (types.ts lines 187-193): no
parameters, returns `Promise<void>` (a completion signal). -/
def quitMember : TsMember := ⟨"Quit", .method, [], .promise .voidType⟩

/-- Look up the optionality marker of a declared field by name. -/
def fieldOptional (fields : List TsField) (n : String) : Option Bool :=
  (fields.find? (fun f => f.name = n)).map TsField.optional

/-! ### Lifecycle manager, modelled from the spec

spec.md section 4.1 describes an Instance Lifecycle Manager; the repository
declares only the types such a manager would use, not its implementation.
The definitions below therefore follow the spec's words. -/

/-- Modelled from the spec: the lifecycle states of section 4.1
(`Idle`, `Loading`, `Running`, `Quitting`, `Terminated`, `Failed`); the
state machine itself is not implemented in the repository. -/
inductive LifecycleState where
  | idle
  | loading
  | running
  | quitting
  | terminated
  | failed
deriving DecidableEq, Repr

/-- Modelled from the spec: the error kinds of section 7, plus the
synchronous message-validation error that section 9 mandates for malformed
`sendMessage` arguments without giving it a name. -/
inductive UnityError where
  | invalidConfiguration
  | alreadyBound
  | bootstrapFailure
  | notRunning
  | teardown
  | invalidMessage
deriving DecidableEq, Repr

/-- Modelled from the spec: the state a Lifecycle Manager carries, which the
repository does not implement.  `boundSurface` records which drawable
surface the instance is bound to, `detachCount` counts surface detachments,
`quitTicket` is the identity of the settled-or-pending completion signal of
`quit` (a promise in the source's terms), and `nextTicket` is a fresh
promise identity. -/
structure ManagerState where
  lifecycle : LifecycleState
  boundSurface : Option CanvasElement
  detachCount : Nat
  quitTicket : Option Nat
  nextTicket : Nat
deriving DecidableEq, Repr

/-- Modelled from the spec: `create`'s synchronous validation, missing from
the repository, which requires that all required locators (`loaderUrl`,
`dataUrl`, `frameworkUrl`, `codeUrl`) are non-empty strings and fails with
`InvalidConfigurationError` otherwise. -/
def validateConfig (cfg : IUnityConfig) : Except UnityError Unit :=
  if cfg.loaderUrl = "" ∨ cfg.dataUrl = "" ∨ cfg.frameworkUrl = "" ∨ cfg.codeUrl = ""
  then .error .invalidConfiguration
  else .ok ()

/-- Modelled from the spec: the create operation's construction of the
runtime-instance arguments from the host configuration, missing from the
repository; the context-attribute set is passed through opaquely,
uninterpreted, and no diagnostic sinks are installed by default. -/
def toUnityArguments (cfg : IUnityConfig) : IUnityArguments :=
  { dataUrl := cfg.dataUrl
    frameworkUrl := cfg.frameworkUrl
    codeUrl := cfg.codeUrl
    streamingAssetsUrl := cfg.streamingAssetsUrl
    memoryUrl := cfg.memoryUrl
    symbolsUrl := cfg.symbolsUrl
    companyName := cfg.companyName
    productName := cfg.productName
    productVersion := cfg.productVersion
    devicePixelRatio := cfg.devicePixelRatio
    matchWebGLToCanvasSize := cfg.matchWebGLToCanvasSize
    webglContextAttributes := cfg.webglContextAttributes
    print := none
    printError := none }

/-- Modelled from the spec: `sendMessage(objectName, methodName, parameter?)`
of section 4.1, missing from the repository.  Valid only from `Running`
(fails with `NotRunningError` otherwise, leaving the state untouched);
`objectName` and `methodName` must be non-empty (section 9 mandates a
synchronous validation error); the message is fire-and-forget, so success
carries no value and does not change the manager's state. -/
def sendMessage (s : ManagerState) (objectName methodName : String)
    (parameter : Option UnityMessageParam) :
    Except UnityError Unit × ManagerState :=
  match s.lifecycle with
  | .running =>
      if objectName = "" ∨ methodName = "" then (.error .invalidMessage, s)
      else
        -- the instance processes (objectName, methodName, parameter)
        -- asynchronously and opaquely; no completion signal is returned
        (.ok (), s)
  | _ => (.error .notRunning, s)

/-- Modelled from the spec: `setFullscreen(enabled)` of section 4.1, missing
from the repository.  Valid only from `Running`, a no-op error otherwise;
the fullscreen mode lives inside the opaque runtime, so the manager's state
— in particular its lifecycle state — is never altered. -/
def setFullscreen (s : ManagerState) (_flag : FullscreenFlag) :
    Except UnityError Unit × ManagerState :=
  match s.lifecycle with
  | .running => (.ok (), s)
  | _ => (.error .notRunning, s)

/-- Modelled from the spec: `quit()` of section 4.1, missing from the
repository.  From `Running` or `Loading` it transitions to `Quitting`
immediately and returns a fresh completion signal, recording it; while
already `Quitting` or `Terminated` it returns the already-recorded signal
with no side effects (in every reachable such state `quitTicket` is set;
the `getD` fallback only serves totality).  From `Idle` or `Failed` there
is nothing to quit. -/
def quit (s : ManagerState) : Except UnityError Nat × ManagerState :=
  match s.lifecycle with
  | .running | .loading =>
      (.ok s.nextTicket,
        { lifecycle := .quitting
          boundSurface := s.boundSurface
          detachCount := s.detachCount
          quitTicket := some s.nextTicket
          nextTicket := s.nextTicket + 1 })
  | .quitting | .terminated => (.ok (s.quitTicket.getD s.nextTicket), s)
  | .idle | .failed => (.error .notRunning, s)

/-- Modelled from the spec: the asynchronous completion of `quit`'s release
sequence, missing from the repository — once the instance confirms release,
the drawable surface is detached and the state becomes `Terminated`.  In
any other state the instance has no release in flight and nothing
happens. -/
def quitSettle (s : ManagerState) : ManagerState :=
  match s.lifecycle with
  | .quitting =>
      { lifecycle := .terminated
        boundSurface := none
        detachCount := s.detachCount + 1
        quitTicket := s.quitTicket
        nextTicket := s.nextTicket }
  | _ => s

/-- A manager state in the `Running` lifecycle state, bound to a surface:
used to instantiate the universally-quantified theorems below. -/
def runningExample : ManagerState :=
  ⟨.running, some (.locator "#unity-canvas"), 0, none, 0⟩

/-- A manager state still in the initial `Idle` lifecycle state. -/
def idleExample : ManagerState := ⟨.idle, none, 0, none, 0⟩

/-- A concrete valid configuration: every required locator non-empty. -/
def configExample : IUnityConfig :=
  ⟨"unity.data", "unity.framework.js", "unity.wasm", none, none, none,
    none, none, none, none, none, none, "unity.loader.js"⟩

/-! ### Theorems for the spec's claims -/

/-- Claim C1: for every call to `sendMessage`, `objectName` and `methodName`
must be non-empty strings (a successful call is only possible when both are
non-empty), the parameter is optional and, when present, is a string, a
number, or a boolean — a closed variant with no structured/object payload —
and the call returns no value (`void` in the declaration, a bare `Unit`
success in the model). -/
theorem sendMessage_contract :
    (∀ (s : ManagerState) (o m : String) (p : Option UnityMessageParam)
        (s' : ManagerState),
        sendMessage s o m p = (.ok (), s') → o ≠ "" ∧ m ≠ "")
  ∧ (∀ p : UnityMessageParam,
      (∃ x, p = UnityMessageParam.str x) ∨ (∃ n, p = UnityMessageParam.num n) ∨
        (∃ b, p = UnityMessageParam.boolean b))
  ∧ sendMessageMember ∈ unityInstanceMembers
  ∧ sendMessageMember.params.map TsParam.optional = [false, false, true]
  ∧ sendMessageMember.params.map TsParam.type
      = [.str, .str, .union .str (.union .num .boolean)]
  ∧ sendMessageMember.returnType = .voidType := by
  refine ⟨?_, ?_, by decide, by decide, by decide, by decide⟩
  · intro s o m p s' h
    unfold sendMessage at h
    split at h
    · split at h
      · exact absurd h (by simp)
      · rename_i hcond
        exact not_or.mp hcond
    · simp at h
  · intro p
    cases p with
    | str x => exact Or.inl ⟨x, rfl⟩
    | num n => exact Or.inr (Or.inl ⟨n, rfl⟩)
    | boolean b => exact Or.inr (Or.inr ⟨b, rfl⟩)

/-- Witness for C1: a concrete successful `sendMessage` call, from which the
non-emptiness of both names follows by the theorem. -/
theorem sendMessage_contract_witness :
    ("Player" : String) ≠ "" ∧ ("Jump" : String) ≠ "" :=
  sendMessage_contract.1 runningExample "Player" "Jump"
    (some (.num 3)) runningExample rfl

/-- Claim C2: `setFullscreen` takes a boolean-like toggle — the declared
argument type is the two-valued literal union `0 | 1`, in bijection with
`Bool` — and invoking it never alters the lifecycle state. -/
theorem setFullscreen_contract :
    setFullscreenMember ∈ unityInstanceMembers
  ∧ setFullscreenMember.params.map TsParam.type
      = [.union (.literalNum 0) (.literalNum 1)]
  ∧ setFullscreenMember.returnType = .voidType
  ∧ (∀ f : FullscreenFlag, boolToFlag (flagToBool f) = f)
  ∧ (∀ b : Bool, flagToBool (boolToFlag b) = b)
  ∧ (∀ (s : ManagerState) (f : FullscreenFlag),
      ((setFullscreen s f).2).lifecycle = s.lifecycle) := by
  refine ⟨by decide, by decide, by decide, ?_, ?_, ?_⟩
  · intro f; cases f <;> rfl
  · intro b; cases b <;> rfl
  · intro s f
    unfold setFullscreen
    split <;> rfl

/-- Counterexample to claim C3 as stated: not every field of the
configuration is declared immutable — the diagnostic sink slot `print`
(and likewise `printError`) of `IUnityArguments` carries no `readonly`
modifier in the source. -/
theorem config_write_once_counterexample :
    (⟨"print", .func .str .voidType, true, false, none⟩ : TsField)
      ∈ unityArgumentsFields
  ∧ ¬ ∀ f ∈ unityArgumentsFields, f.readonly = true := by decide

/-- Claim C3 (amended): every field of `IUnityConfig` is declared
`readonly`, and every field of `IUnityArguments` is declared `readonly`
except exactly the two diagnostic sink slots `print` and `printError`,
which are declared mutable. -/
theorem config_readonly_amended :
    unityConfigFields.all (fun f => f.readonly) = true
  ∧ (unityArgumentsFields.filter (fun f => !f.readonly)).map TsField.name
      = ["print", "printError"] := by decide

/-- Claim C4: in `IUnityConfig` the loader, data, framework and code
locators are exactly the required fields (all other fields, among them the
streaming-assets root and the legacy memory/debug-symbol locators, are
optional), and the spec-modelled create-time validation succeeds only when
all four required locators are non-empty strings. -/
theorem config_locators_required :
    (unityConfigFields.filter (fun f => !f.optional)).map TsField.name
      = ["dataUrl", "frameworkUrl", "codeUrl", "loaderUrl"]
  ∧ fieldOptional unityConfigFields "streamingAssetsUrl" = some true
  ∧ fieldOptional unityConfigFields "memoryUrl" = some true
  ∧ fieldOptional unityConfigFields "symbolsUrl" = some true
  ∧ (∀ cfg : IUnityConfig, validateConfig cfg = .ok () →
      cfg.loaderUrl ≠ "" ∧ cfg.dataUrl ≠ "" ∧ cfg.frameworkUrl ≠ ""
        ∧ cfg.codeUrl ≠ "") := by
  refine ⟨by decide, by decide, by decide, by decide, ?_⟩
  intro cfg h
  by_cases hc : cfg.loaderUrl = "" ∨ cfg.dataUrl = "" ∨ cfg.frameworkUrl = ""
      ∨ cfg.codeUrl = ""
  · simp [validateConfig, hc] at h
  · push_neg at hc
    exact ⟨hc.1, hc.2.1, hc.2.2.1, hc.2.2.2⟩

/-- Witness for C4: a concrete configuration accepted by the validation,
whose required locators are therefore non-empty. -/
theorem config_locators_required_witness :
    configExample.loaderUrl ≠ "" ∧ configExample.dataUrl ≠ ""
  ∧ configExample.frameworkUrl ≠ "" ∧ configExample.codeUrl ≠ "" :=
  config_locators_required.2.2.2.2 configExample rfl

/-- Claim C5: besides its trivial parameterless constructor, the declared
`UnityInstance` class exposes exactly four members — `SendMessage`
returning `void`, `SetFullscreen` returning `void`, `Quit` returning
`Promise<void>` (a completion signal), and the readable `Module` property
whose sole field is the reference to the bound drawable surface — and
nothing else. -/
theorem unityInstance_capabilities :
    (unityInstanceMembers.filter (fun m => m.kind ≠ TsMemberKind.ctor)).map
        TsMember.name
      = ["SendMessage", "SetFullscreen", "Quit", "Module"]
  ∧ (unityInstanceMembers.filter (fun m => m.kind ≠ TsMemberKind.ctor)).length
      = 4
  ∧ sendMessageMember ∈ unityInstanceMembers
  ∧ sendMessageMember.returnType = .voidType
  ∧ setFullscreenMember ∈ unityInstanceMembers
  ∧ setFullscreenMember.returnType = .voidType
  ∧ quitMember ∈ unityInstanceMembers
  ∧ quitMember.returnType = .promise .voidType
  ∧ (⟨"Module", .property, [], .namedRef "UnityModule"⟩ : TsMember)
      ∈ unityInstanceMembers
  ∧ moduleFields.map TsField.type = [.canvasHandleType] := by decide

/-- Counterexample to claim C6 as stated: the context-attribute set does
not consist only of the nine listed attributes — the source also declares
`failIfMajorPerformanceCaveat`, which is not among them. -/
theorem contextAttributes_counterexample :
    "failIfMajorPerformanceCaveat" ∈ webglContextAttributeFields.map TsField.name
  ∧ "failIfMajorPerformanceCaveat" ∉
      ["alpha", "antialias", "depth", "stencil", "powerPreference",
        "premultipliedAlpha", "preserveDrawingBuffer", "desynchronized",
        "xrCompatible"] := by decide

/-- Claim C6 (amended): the nested context-attribute set consists of the
alpha-channel, antialiasing, depth-buffer, fail-if-major-performance-caveat,
power-preference, premultiplied-alpha, preserve-drawing-buffer,
stencil-buffer, desynchronized-rendering and XR-compatibility attributes;
every one is optional with a documented default, and the set is passed
through opaquely, uninterpreted, into the runtime-instance arguments. -/
theorem contextAttributes_amended :
    webglContextAttributeFields.map TsField.name
      = ["alpha", "antialias", "depth", "failIfMajorPerformanceCaveat",
          "powerPreference", "premultipliedAlpha", "preserveDrawingBuffer",
          "stencil", "desynchronized", "xrCompatible"]
  ∧ webglContextAttributeFields.all
      (fun f => f.optional && f.docDefault.isSome) = true
  ∧ (∀ cfg : IUnityConfig,
      (toUnityArguments cfg).webglContextAttributes
        = cfg.webglContextAttributes) :=
  ⟨by decide, by decide, fun _ => rfl⟩

/-- Claim C7: from a `Running` state, a second `quit` issued while the
manager is still `Quitting` — or after it has reached `Terminated` — returns
the same completion signal as the first call and leaves the state exactly
as it was (no side effects), and across both calls the surface is detached
exactly once (the detach counter rises by exactly one even after settling
everything). -/
theorem quit_idempotent (s : ManagerState) (h : s.lifecycle = .running) :
    (quit (quit s).2).1 = (quit s).1
  ∧ (quit (quit s).2).2 = (quit s).2
  ∧ (quit (quitSettle (quit s).2)).1 = (quit s).1
  ∧ (quit (quitSettle (quit s).2)).2 = quitSettle (quit s).2
  ∧ (quitSettle (quit s).2).detachCount = s.detachCount + 1
  ∧ (quitSettle ((quit (quitSettle (quit s).2)).2)).detachCount
      = s.detachCount + 1 := by
  obtain ⟨ls, bs, dc, qt, nt⟩ := s
  cases ls <;> first
    | exact ⟨rfl, rfl, rfl, rfl, rfl, rfl⟩
    | simp at h

/-- Witness for C7: the idempotence conjunction instantiated at a concrete
running manager state. -/
theorem quit_idempotent_witness :
    (quit (quit runningExample).2).1 = (quit runningExample).1
  ∧ (quit (quit runningExample).2).2 = (quit runningExample).2
  ∧ (quit (quitSettle (quit runningExample).2)).1 = (quit runningExample).1
  ∧ (quit (quitSettle (quit runningExample).2)).2
      = quitSettle (quit runningExample).2
  ∧ (quitSettle (quit runningExample).2).detachCount
      = runningExample.detachCount + 1
  ∧ (quitSettle ((quit (quitSettle (quit runningExample).2)).2)).detachCount
      = runningExample.detachCount + 1 :=
  quit_idempotent runningExample rfl

/-- Claim C8: in every lifecycle state other than `Running` (`Idle`,
`Loading`, `Quitting`, `Terminated`, `Failed`), `sendMessage` fails
synchronously with `NotRunningError` and returns the manager state
unchanged. -/
theorem sendMessage_not_running (s : ManagerState) (o m : String)
    (p : Option UnityMessageParam) (h : s.lifecycle ≠ .running) :
    sendMessage s o m p = (.error UnityError.notRunning, s) := by
  obtain ⟨ls, bs, dc, qt, nt⟩ := s
  cases ls <;> first
    | exact absurd rfl h
    | rfl

/-- Witness for C8: `sendMessage` on a concrete `Idle` state fails with
`NotRunningError` and leaves the state untouched. -/
theorem sendMessage_not_running_witness :
    sendMessage idleExample "Player" "Jump" none
      = (.error UnityError.notRunning, idleExample) :=
  sendMessage_not_running idleExample "Player" "Jump" none (by decide)

/-- Claim C9: every caller-supplied drawable-surface reference is one of
exactly two shapes — a direct handle to a pre-existing rendering surface or
a string locator. -/
theorem canvasElement_shapes (c : CanvasElement) :
    (∃ h, c = CanvasElement.handle h) ∨ (∃ s, c = CanvasElement.locator s) := by
  cases c with
  | handle h => exact Or.inl ⟨h, rfl⟩
  | locator s => exact Or.inr ⟨s, rfl⟩

/-- Claim C10: the runtime instance's readable reference to its bound
drawable surface (`Module.canvas`) is declared optional; a module value with
no canvas exists, so every reader must handle both the absent and the
present case. -/
theorem module_canvas_optional :
    fieldOptional moduleFields "canvas" = some true
  ∧ (∃ m : UnityModule, m.canvas = none)
  ∧ (∀ m : UnityModule, m.canvas = none ∨ ∃ h, m.canvas = some h) := by
  refine ⟨by decide, ⟨⟨none⟩, rfl⟩, ?_⟩
  intro m
  cases hm : m.canvas with
  | none => exact Or.inl rfl
  | some h => exact Or.inr ⟨h, rfl⟩
